import Mathlib

/-!
Verification of the py-spiffe core against its specification.

The development shallowly embeds two source modules:
* `src/pyspiffe/svid/jwt_svid_validator.py` — JWT-SVID header and claim
  validation (`JwtSvidValidator`);
* `src/pyspiffe/bundle/x509_bundle/x509_bundle.py` — the X.509 trust
  bundle (`X509Bundle`), modelled with an explicit heap so that the
  copy-on-construction and copy-on-read (aliasing) behaviour of Python
  sets is visible.

Python dynamic values are embedded as `PyVal`, Python exceptions as the
`ValidationError` / `BundleError` sum types, and fallible operations
return `Except`.
-/

/-- Embedding of the Python values that flow through the validator:
`None`, integers, strings, and lists of strings (the type the source
annotates for the `aud` claim: `List[str]`). -/
inductive PyVal where
  | null : PyVal
  | int (n : Int) : PyVal
  | str (s : String) : PyVal
  | strList (l : List String) : PyVal
deriving DecidableEq, Repr

/-- Python truthiness for the embedded values: `None`, `0`, the empty
string and the empty list are falsy, everything else is truthy. -/
def truthy : PyVal → Bool
  | .null => false
  | .int n => n != 0
  | .str s => s != ""
  | .strList l => !l.isEmpty

/-- `payload.get(claim)`: association-list lookup returning Python
`None` when the key is absent (first binding wins, as in a dict). -/
def dictGet (d : List (String × PyVal)) (k : String) : PyVal :=
  match d.find? (fun p => p.1 == k) with
  | some p => p.2
  | Option.none => PyVal.null

/-- Embedding of the exceptions raised by the validator.  Modelled from
the spec: `pyspiffe/svid/exceptions.py` is not under `src/`; §7 of the
spec lists the claim-validation errors as distinct, named error kinds
(`MissingClaimError`, `InvalidClaimError`, `TokenExpiredError`,
`InvalidAlgorithmError`, `InvalidTypeError`), siblings rather than
subclasses of one another, plus the builtin `ValueError` used for
input-validation failures and raised by the `int` builtin. -/
inductive ValidationError where
  | valueError (msg : String) : ValidationError
  | missingClaim (claim : String) : ValidationError
  | tokenExpired : ValidationError
  | invalidClaim (msg : String) : ValidationError
  | invalidAlgorithm (alg : String) : ValidationError
  | invalidType (typ : String) : ValidationError
deriving DecidableEq, Repr

/-- Modelled from the spec: the `INVALID_INPUT_ERROR` format string lives
in `pyspiffe/svid/__init__.py`, which is not under `src/`; the spec calls
these failures input-validation errors and the exact text is irrelevant
to every claim. -/
def INVALID_INPUT_ERROR (detail : String) : String :=
  "Invalid input: " ++ detail ++ "."

/-- `jwt_svid_validator.py:19`: the audience-mismatch message. -/
def AUDIENCE_NOT_MATCH_ERROR : String := "audience does not match expected value"

/-- `jwt_svid_validator.py:29`: the required claims, in source order. -/
def REQUIRED_CLAIMS : List String := ["aud", "exp", "sub"]

/-- `jwt_svid_validator.py:30`: the supported signature algorithms. -/
def SUPPORTED_ALGORITHMS : List String :=
  ["RS256", "RS384", "RS512", "ES256", "ES384", "ES512", "PS256", "PS384", "PS512"]

/-- `jwt_svid_validator.py:42`: the supported token types. -/
def SUPPORTED_TYPES : List String := ["JWT", "JOSE"]

/-- Message of the `ValueError` raised by the `int` builtin on a
non-numeric argument; the source propagates it unchanged. -/
def INT_PARSE_ERROR : String := "invalid literal for int with base 10"

/-- The numeric value of a decimal digit character, if it is one. -/
def charDigit (c : Char) : Option Nat :=
  if c.toNat < 48 ∨ 57 < c.toNat then Option.none else some (c.toNat - 48)

/-- Reads a non-empty all-digit character list as a natural number. -/
def digitsToNat (cs : List Char) : Option Nat :=
  if cs = [] then Option.none
  else cs.foldl (fun acc c =>
    match acc, charDigit c with
    | some n, some d => some (n * 10 + d)
    | _, _ => Option.none) (some 0)

/-- Embedding of the `int` builtin on strings: accepts an optionally
negated non-empty run of decimal digits, rejects everything else.
(Python additionally strips whitespace and allows a leading plus sign
and underscore separators; those corner forms are outside the embedding
and behave as non-numeric here — no claim depends on them.) -/
def pyStrToInt (s : String) : Option Int :=
  match s.data with
  | [] => Option.none
  | c :: cs =>
    if c = '-' then (digitsToNat cs).map (fun n => -(n : Int))
    else (digitsToNat (c :: cs)).map (fun n => (n : Int))

/-- Models the composition `int(str(v))` from
`jwt_svid_validator.py:99,113`: `str` of an `int` is its decimal form and
`int` parses it back (identity on integers); `str` of a string is the
string itself, which `int` parses when numeric; `str(None)` and `str` of
a list are never numeric, so `int` raises `ValueError` on them. -/
def pyIntOfStr : PyVal → Option Int
  | .int n => some n
  | .str s => pyStrToInt s
  | .null => Option.none
  | .strList _ => Option.none

/-- `JwtSvidValidator._validate_exp` (`jwt_svid_validator.py:102`):
`int_date = int(expiration_date)`, then raise `TokenExpiredError` when
`int_date < utctime`.  The current UTC time (`timegm(utcnow)`) is an
explicit parameter `now` of the embedding. -/
def validate_exp (now : Int) (expiration_date : PyVal) : Except ValidationError Unit :=
  match pyIntOfStr expiration_date with
  | Option.none => .error (.valueError INT_PARSE_ERROR)
  | some int_date => if int_date < now then .error .tokenExpired else .ok ()

/-- `JwtSvidValidator._validate_aud` (`jwt_svid_validator.py:118`).
`expected_audience` arrives as a Python set; it is embedded as the list
of its elements (only emptiness and membership are consulted). -/
def validate_aud (audience_claim : List String) (expected_audience : List String) :
    Except ValidationError Unit :=
  if expected_audience.isEmpty then
    .error (.valueError (INVALID_INPUT_ERROR "expected_audience cannot be empty"))
  else if audience_claim.isEmpty || audience_claim.all (fun aud => aud == "") then
    .error (.invalidClaim "audience_claim cannot be empty")
  else if !(expected_audience.all (fun aud => audience_claim.contains aud)) then
    .error (.invalidClaim AUDIENCE_NOT_MATCH_ERROR)
  else .ok ()

/-- Extracts the audience list passed to `_validate_aud` at
`jwt_svid_validator.py:100` (`payload.get('aud', [])`).  The source
annotates the claim as `List[str]`; an absent claim yields the default
`[]`, and non-list values are outside the typed fragment the validator
handles, so they map to `[]` as well (no claim exercises them: the
required-claim check has already ensured `aud` is truthy). -/
def pyAudList : PyVal → List String
  | .strList l => l
  | _ => []

/-- `JwtSvidValidator.validate_claims` (`jwt_svid_validator.py:77`):
the required-claim loop over `REQUIRED_CLAIMS` (first falsy claim wins),
then `_validate_exp(str(payload.get('exp')))`, then
`_validate_aud(payload.get('aud', []), expected_audience)`. -/
def validate_claims (now : Int) (payload : List (String × PyVal))
    (expected_audience : List String) : Except ValidationError Unit :=
  match REQUIRED_CLAIMS.find? (fun claim => !(truthy (dictGet payload claim))) with
  | some claim => .error (.missingClaim claim)
  | Option.none =>
    match validate_exp now (dictGet payload "exp") with
    | .error e => .error e
    | .ok () => validate_aud (pyAudList (dictGet payload "aud")) expected_audience

/-- `headers.get(k)` on the token-header dict. -/
def headersGet (headers : List (String × String)) (k : String) : Option String :=
  (headers.find? (fun p => p.1 == k)).map (fun p => p.2)

/-- `JwtSvidValidator.validate_headers` (`jwt_svid_validator.py:47`):
empty headers and an absent or empty `alg` raise `ValueError`; an
unsupported `alg` raises `InvalidAlgorithmError`; a present, non-empty,
unsupported `typ` raises `InvalidTypeError`; otherwise success. -/
def validate_headers (headers : List (String × String)) : Except ValidationError Unit :=
  if headers.isEmpty then
    .error (.valueError (INVALID_INPUT_ERROR "header cannot be empty"))
  else
    match headersGet headers "alg" with
    | Option.none => .error (.valueError (INVALID_INPUT_ERROR "header alg cannot be empty"))
    | some alg =>
      if alg == "" then
        .error (.valueError (INVALID_INPUT_ERROR "header alg cannot be empty"))
      else if !(SUPPORTED_ALGORITHMS.contains alg) then
        .error (.invalidAlgorithm alg)
      else
        match headersGet headers "typ" with
        | Option.none => .ok ()
        | some typ =>
          if typ != "" && !(SUPPORTED_TYPES.contains typ) then
            .error (.invalidType typ)
          else .ok ()

/-!
## X.509 trust bundle (`x509_bundle.py`)

Certificates are opaque values, embedded as strings compared by value
(the source deduplicates them with Python set semantics, i.e. structural
equality).  Python references to mutable sets are embedded with an
explicit heap: a reference is a natural number, the heap maps it to a
`Finset` of certificates, and allocation hands out fresh references.
This makes the copy-on-construction and copy-on-read behaviour of the
source provable rather than invisible. -/

/-- An opaque X.509 certificate value, compared structurally. -/
abbrev Cert : Type := String

/-- A heap of mutable Python sets of certificates: `sets` maps each
reference to its contents, references `≥ next` are unallocated. -/
structure Heap where
  sets : Nat → Finset Cert
  next : Nat

/-- Reads the set behind reference `r`. -/
def hget (h : Heap) (r : Nat) : Finset Cert := h.sets r

/-- Overwrites the set behind reference `r` (mutation of a Python set
object in place). -/
def hset (h : Heap) (r : Nat) (s : Finset Cert) : Heap :=
  ⟨fun i => if i = r then s else h.sets i, h.next⟩

/-- Allocates a fresh set object holding `s` and returns its reference. -/
def halloc (h : Heap) (s : Finset Cert) : Heap × Nat :=
  (⟨fun i => if i = h.next then s else h.sets i, h.next + 1⟩, h.next)

/-- Mutation of a caller-held set object: `r.add(c)` on the raw
reference, bypassing any bundle. -/
def setAdd (h : Heap) (r : Nat) (c : Cert) : Heap :=
  hset h r (insert c (hget h r))

/-- Modelled from the spec: `pyspiffe/spiffe_id/errors.py` is not under
`src/`; §4.1 gives the constructor failure message as a missing trust
domain. -/
def MISSING_TRUST_DOMAIN : String := "trust domain is missing"

/-- Embedding of the exceptions raised by the bundle module.  Modelled
from the spec where the class definitions are outside `src/`
(`pyspiffe/bundle/x509_bundle/exceptions.py`, `pyspiffe/exceptions.py`):
§7 lists them as distinct named error kinds.  `keyError` is the builtin
`KeyError` that Python `set.remove` raises on an absent element. -/
inductive BundleError where
  | x509BundleError (msg : String) : BundleError
  | parseX509BundleError (msg : String) : BundleError
  | loadX509BundleError (msg : String) : BundleError
  | argumentError (msg : String) : BundleError
  | keyError : BundleError
deriving DecidableEq, Repr

/-- `serialization.Encoding`, restricted to the two values the source
accepts (`x509_bundle.py:102`); the spec (§9) asks for a closed
two-variant enumeration, which makes the unsupported-encoding arm of
`save`/`load` unreachable in the embedding. -/
inductive Encoding where
  | PEM : Encoding
  | DER : Encoding
deriving DecidableEq, Repr

/-- A byte buffer, represented by what it encodes.  Modelled from the
spec: the PEM/DER decode and encode primitives
(`pyspiffe/utils/certificate_utils.py`) are not under `src/` and §1/§6
treat them as trusted collaborators, so a buffer is embedded as the
sequence of certificates it holds in the given encoding, or as
`malformed` for bytes no parser accepts. -/
inductive Bytes where
  | pem (certs : List Cert) : Bytes
  | der (certs : List Cert) : Bytes
  | malformed : Bytes
deriving DecidableEq

/-- The file system seen by `save`/`load`: a mapping from paths to file
contents. -/
def FS : Type := String → Option Bytes

/-- Writes `bytes` at `path`, creating or overwriting the file. -/
def fsWrite (fs : FS) (path : String) (bytes : Bytes) : FS :=
  fun p => if p = path then some bytes else fs p

/-- Modelled from the spec: `parse_pem_certificates` decodes a PEM
buffer into its certificates and fails on malformed or empty input
(§4.1: parse fails on malformed block or empty input). -/
def parse_pem_certificates : Bytes → Except String (List Cert)
  | .pem [] => .error "empty PEM input"
  | .pem certs => .ok certs
  | .der _ => .error "unable to parse PEM"
  | .malformed => .error "unable to parse PEM"

/-- Modelled from the spec: DER counterpart of `parse_pem_certificates`. -/
def parse_der_certificates : Bytes → Except String (List Cert)
  | .der [] => .error "empty DER input"
  | .der certs => .ok certs
  | .pem _ => .error "unable to parse DER"
  | .malformed => .error "unable to parse DER"

/-- Modelled from the spec: `write_certificates_to_file` serializes the
authority set to the file in the requested encoding (§6: file ordering
carries no semantic meaning — the embedding writes a canonical order). -/
def write_certificates_to_file (fs : FS) (bundle_path : String) (encoding : Encoding)
    (certs : Finset Cert) : FS :=
  match encoding with
  | .PEM => fsWrite fs bundle_path (.pem (certs.sort (fun a b => a ≤ b)))
  | .DER => fsWrite fs bundle_path (.der (certs.sort (fun a b => a ≤ b)))

/-- Modelled from the spec: `load_certificates_bytes_from_file` reads the
raw bytes at `path`, failing when the file is missing. -/
def load_certificates_bytes_from_file (fs : FS) (path : String) : Except String Bytes :=
  match fs path with
  | some b => .ok b
  | Option.none => .error "file not found"

/-- The bundle object: its trust domain (immutable) and the reference to
its private authority set (`x509_bundle.py:52`). -/
structure X509Bundle where
  trust_domain : String
  authoritiesRef : Nat

/-- `X509Bundle.__init__` (`x509_bundle.py:32`): rejects an empty trust
domain, then stores `x509_authorities.copy() if x509_authorities else
set()` — always a freshly allocated set, never the caller's object. -/
def X509Bundle.init (h : Heap) (trust_domain : String) (x509_authorities : Option Nat) :
    Except BundleError (Heap × X509Bundle) :=
  if trust_domain = "" then
    .error (.x509BundleError MISSING_TRUST_DOMAIN)
  else
    let contents := match x509_authorities with
      | some r => hget h r
      | Option.none => ∅
    let a := halloc h contents
    .ok (a.1, ⟨trust_domain, a.2⟩)

/-- `X509Bundle.x509_authorities` (`x509_bundle.py:68`): returns
`self._x509_authorities.copy()` — a freshly allocated snapshot. -/
def X509Bundle.x509_authorities (h : Heap) (b : X509Bundle) : Heap × Nat :=
  halloc h (hget h b.authoritiesRef)

/-- `X509Bundle.add_authority` (`x509_bundle.py:73`): inserts into the
internal set in place. -/
def X509Bundle.add_authority (h : Heap) (b : X509Bundle) (x509_authority : Cert) : Heap :=
  hset h b.authoritiesRef (insert x509_authority (hget h b.authoritiesRef))

/-- `X509Bundle.remove_authority` (`x509_bundle.py:78`): a no-op on an
empty set, otherwise `set.remove`, which raises `KeyError` when the
element is absent. -/
def X509Bundle.remove_authority (h : Heap) (b : X509Bundle) (x509_authority : Cert) :
    Except BundleError Heap :=
  let s := hget h b.authoritiesRef
  if s = ∅ then .ok h
  else if x509_authority ∈ s then
    .ok (hset h b.authoritiesRef (s.erase x509_authority))
  else .error .keyError

/-- `X509Bundle.save` (`x509_bundle.py:85`): writes the current authority
set to `bundle_path` in the requested encoding.  The encoding guard of
the source is unreachable over the closed `Encoding` type, and the I/O
collaborator of the embedding always accepts writes, so `save` returns
the updated file system. -/
def X509Bundle.save (h : Heap) (b : X509Bundle) (fs : FS) (bundle_path : String)
    (encoding : Encoding) : FS :=
  write_certificates_to_file fs bundle_path encoding (hget h b.authoritiesRef)

/-- `X509Bundle.parse` (`x509_bundle.py:115`): decodes PEM bytes and
builds `X509Bundle(trust_domain, set(authorities))`. -/
def X509Bundle.parse (h : Heap) (trust_domain : String) (bundle_bytes : Bytes) :
    Except BundleError (Heap × X509Bundle) :=
  match parse_pem_certificates bundle_bytes with
  | .error e => .error (.parseX509BundleError e)
  | .ok authorities =>
    let a := halloc h authorities.toFinset
    X509Bundle.init a.1 trust_domain (some a.2)

/-- `X509Bundle.parse_raw` (`x509_bundle.py:138`): DER counterpart of
`parse`. -/
def X509Bundle.parse_raw (h : Heap) (trust_domain : String) (bundle_bytes : Bytes) :
    Except BundleError (Heap × X509Bundle) :=
  match parse_der_certificates bundle_bytes with
  | .error e => .error (.parseX509BundleError e)
  | .ok authorities =>
    let a := halloc h authorities.toFinset
    X509Bundle.init a.1 trust_domain (some a.2)

/-- `X509Bundle.load` (`x509_bundle.py:161`): reads the file, then
dispatches to `parse` (PEM) or `parse_raw` (DER). -/
def X509Bundle.load (h : Heap) (trust_domain : String) (fs : FS) (bundle_path : String)
    (encoding : Encoding) : Except BundleError (Heap × X509Bundle) :=
  match load_certificates_bytes_from_file fs bundle_path with
  | .error e => .error (.loadX509BundleError e)
  | .ok bundle_bytes =>
    match encoding with
    | .PEM => X509Bundle.parse h trust_domain bundle_bytes
    | .DER => X509Bundle.parse_raw h trust_domain bundle_bytes

/-!
## Heap lemmas -/

theorem hget_hset_self (h : Heap) (r : Nat) (s : Finset Cert) : hget (hset h r s) r = s := by
  simp [hget, hset]

theorem hget_hset_ne (h : Heap) (r r' : Nat) (s : Finset Cert) (hne : r' ≠ r) :
    hget (hset h r s) r' = hget h r' := by
  simp [hget, hset, hne]

theorem hget_halloc_new (h : Heap) (s : Finset Cert) :
    hget (halloc h s).1 (halloc h s).2 = s := by
  simp [hget, halloc]

theorem hget_halloc_old (h : Heap) (s : Finset Cert) (r : Nat) (hr : r < h.next) :
    hget (halloc h s).1 r = hget h r := by
  have : r ≠ h.next := Nat.ne_of_lt hr
  simp [hget, halloc, this]

theorem halloc_snd (h : Heap) (s : Finset Cert) : (halloc h s).2 = h.next := rfl

theorem halloc_next (h : Heap) (s : Finset Cert) : (halloc h s).1.next = h.next + 1 := rfl

/-!
## Claim theorems -/

/-- C1: `validate_claims` performs its checks in a fixed order — the
required-claim check over `aud`, `exp`, `sub` in that order (raising
`MissingClaimError` for the first missing or falsy claim), then the
expiration check, then the audience check — so the error raised is the
one of the earliest failing stage; in particular a payload with a past
`exp` and a mismatched audience raises `TokenExpiredError`. -/
theorem validate_claims_stage_order (now : Int) (payload : List (String × PyVal))
    (expected_audience : List String) :
    (truthy (dictGet payload "aud") = false →
      validate_claims now payload expected_audience = .error (.missingClaim "aud")) ∧
    (truthy (dictGet payload "aud") = true → truthy (dictGet payload "exp") = false →
      validate_claims now payload expected_audience = .error (.missingClaim "exp")) ∧
    (truthy (dictGet payload "aud") = true → truthy (dictGet payload "exp") = true →
      truthy (dictGet payload "sub") = false →
      validate_claims now payload expected_audience = .error (.missingClaim "sub")) ∧
    (∀ e, truthy (dictGet payload "aud") = true → truthy (dictGet payload "exp") = true →
      truthy (dictGet payload "sub") = true →
      validate_exp now (dictGet payload "exp") = .error e →
      validate_claims now payload expected_audience = .error e) ∧
    (truthy (dictGet payload "aud") = true → truthy (dictGet payload "exp") = true →
      truthy (dictGet payload "sub") = true →
      validate_exp now (dictGet payload "exp") = .ok () →
      validate_claims now payload expected_audience =
        validate_aud (pyAudList (dictGet payload "aud")) expected_audience) ∧
    (∀ k : Int, truthy (dictGet payload "aud") = true →
      truthy (dictGet payload "sub") = true →
      dictGet payload "exp" = .int k → k ≠ 0 → k < now →
      validate_claims now payload expected_audience = .error .tokenExpired) := by
  refine ⟨?_, ?_, ?_, ?_, ?_, ?_⟩
  · intro h1
    simp [validate_claims, REQUIRED_CLAIMS, List.find?, h1]
  · intro h1 h2
    simp [validate_claims, REQUIRED_CLAIMS, List.find?, h1, h2]
  · intro h1 h2 h3
    simp [validate_claims, REQUIRED_CLAIMS, List.find?, h1, h2, h3]
  · intro e h1 h2 h3 h4
    simp [validate_claims, REQUIRED_CLAIMS, List.find?, h1, h2, h3, h4]
  · intro h1 h2 h3 h4
    simp [validate_claims, REQUIRED_CLAIMS, List.find?, h1, h2, h3, h4]
  · intro k h1 h3 h4 h5 h6
    have h7 : truthy (PyVal.int k) = true := by simp [truthy, h5]
    simp [validate_claims, REQUIRED_CLAIMS, List.find?, h1, h3, h4, h7,
      validate_exp, pyIntOfStr, h6]

/-- C1 witness: a payload whose `exp` is in the past and whose audience
does not match the expected audience raises `TokenExpiredError`, not
`InvalidClaimError`. -/
theorem validate_claims_stage_order_witness :
    validate_claims 200
      [("aud", PyVal.strList ["a"]), ("exp", PyVal.int 100), ("sub", PyVal.str "s")]
      ["b"] = .error .tokenExpired :=
  (validate_claims_stage_order 200
      [("aud", PyVal.strList ["a"]), ("exp", PyVal.int 100), ("sub", PyVal.str "s")]
      ["b"]).2.2.2.2.2 100 (by decide) (by decide) (by decide) (by decide) (by decide)

/-- The audience check can only raise `ValueError` or `InvalidClaimError`,
never `TokenExpiredError`. -/
theorem validate_aud_ne_tokenExpired (audience_claim expected_audience : List String) :
    validate_aud audience_claim expected_audience ≠ .error .tokenExpired := by
  unfold validate_aud
  split
  · simp
  · split
    · simp
    · split <;> simp

/-- Discriminates the `InvalidClaimError` constructor. -/
def isInvalidClaim : ValidationError → Bool
  | .invalidClaim _ => true
  | _ => false

/-- Whether a validation outcome is an `InvalidClaimError`. -/
def resultIsInvalidClaim : Except ValidationError Unit → Bool
  | .error e => isInvalidClaim e
  | .ok _ => false

/-- C2 counterexample: with `aud = [""]` (truthy, so it passes the
required-claim check) and `expected_audience = {""}`, every element of
the expected audience is present in the token's `aud` list, yet
`validate_claims` does not succeed — the blank-audience guard fires
first — so the claimed equivalence is false as stated. -/
theorem validate_claims_audience_subset_counterexample :
    (REQUIRED_CLAIMS.find? (fun claim =>
      !(truthy (dictGet [("aud", PyVal.strList [""]), ("exp", PyVal.int 100),
        ("sub", PyVal.str "s")] claim))) = Option.none) ∧
    (validate_exp 50 (dictGet [("aud", PyVal.strList [""]), ("exp", PyVal.int 100),
      ("sub", PyVal.str "s")] "exp") = .ok ()) ∧
    (∀ a ∈ [""], a ∈ [""]) ∧
    (validate_claims 50
      [("aud", PyVal.strList [""]), ("exp", PyVal.int 100), ("sub", PyVal.str "s")]
      [""] = .error (.invalidClaim "audience_claim cannot be empty")) :=
  ⟨rfl, rfl, by decide, rfl⟩

/-- C2 (amended): for every payload that passes the required-claim and
expiration checks, whose `aud` claim list is not made of blank strings
only, and every non-empty `expected_audience`, `validate_claims`
succeeds if and only if every element of `expected_audience` is present
in the token's `aud` list; when the subset fails it raises
`InvalidClaimError` with the audience-mismatch message.  (For an
all-blank `aud` list the blank-audience guard fires first — see the
counterexample.) -/
theorem validate_claims_audience_subset (now : Int) (payload : List (String × PyVal))
    (expected_audience auds : List String)
    (h_aud : dictGet payload "aud" = PyVal.strList auds)
    (h_exp_t : truthy (dictGet payload "exp") = true)
    (h_sub : truthy (dictGet payload "sub") = true)
    (h_exp : validate_exp now (dictGet payload "exp") = .ok ())
    (h_ea : expected_audience ≠ [])
    (h_blank : ¬ (∀ a ∈ auds, a = "")) :
    (validate_claims now payload expected_audience = .ok () ↔
      ∀ a ∈ expected_audience, a ∈ auds) ∧
    ((¬ ∀ a ∈ expected_audience, a ∈ auds) →
      validate_claims now payload expected_audience =
        .error (.invalidClaim AUDIENCE_NOT_MATCH_ERROR)) := by
  have h_ne : auds ≠ [] := by
    intro h
    exact h_blank (by simp [h])
  have h_audt : truthy (PyVal.strList auds) = true := by
    simp [truthy, h_ne]
  have hred : validate_claims now payload expected_audience =
      validate_aud auds expected_audience := by
    simp [validate_claims, REQUIRED_CLAIMS, List.find?, h_aud, h_audt, h_exp_t, h_sub,
      h_exp, pyAudList]
  have h_all : auds.all (fun aud => aud == "") = false := by
    simp [List.all_eq_true]
    push_neg at h_blank
    obtain ⟨a, ha, hne⟩ := h_blank
    exact ⟨a, ha, hne⟩
  rw [hred]
  unfold validate_aud
  rw [if_neg (by simp [h_ea]), if_neg (by simp [h_all, h_ne])]
  by_cases hsub : ∀ a ∈ expected_audience, a ∈ auds
  · rw [if_neg (by simp; exact hsub)]
    exact ⟨⟨fun _ => hsub, fun _ => rfl⟩, fun hc => absurd hsub hc⟩
  · rw [if_pos (by simp; push_neg at hsub; exact hsub)]
    exact ⟨⟨fun h => Except.noConfusion h, fun h => absurd h hsub⟩, fun _ => rfl⟩

/-- C2 witness: the amended theorem applied to a payload with audience
list `[a, b]`: expected audience `[a, c]` is rejected with the
audience-mismatch error. -/
theorem validate_claims_audience_subset_witness :
    validate_claims 50
      [("aud", PyVal.strList ["a", "b"]), ("exp", PyVal.int 100), ("sub", PyVal.str "s")]
      ["a", "c"] = .error (.invalidClaim AUDIENCE_NOT_MATCH_ERROR) :=
  (validate_claims_audience_subset 50
    [("aud", PyVal.strList ["a", "b"]), ("exp", PyVal.int 100), ("sub", PyVal.str "s")]
    ["a", "c"] ["a", "b"] rfl (by decide) (by decide) rfl (by decide)
    (by decide)).2 (by decide)

/-- C3 counterexample: a payload whose `aud` claim is the empty list
(with the other checks satisfiable) makes `validate_claims` raise
`MissingClaimError` for `aud` at the required-claim stage — an empty
list is falsy — not `InvalidClaimError` as the claim states. -/
theorem validate_claims_blank_audience_counterexample :
    (dictGet [("aud", PyVal.strList []), ("exp", PyVal.int 100), ("sub", PyVal.str "s")]
      "aud" = PyVal.strList []) ∧
    (validate_claims 50
      [("aud", PyVal.strList []), ("exp", PyVal.int 100), ("sub", PyVal.str "s")]
      ["a"] = .error (.missingClaim "aud")) ∧
    (resultIsInvalidClaim (validate_claims 50
      [("aud", PyVal.strList []), ("exp", PyVal.int 100), ("sub", PyVal.str "s")]
      ["a"]) = false) :=
  ⟨rfl, rfl, rfl⟩

/-- C3 (amended): for every payload that passes the required-claim and
expiration checks and every non-empty `expected_audience`, an `aud`
claim list consisting only of blank strings (necessarily non-empty,
since an empty list is falsy) makes `validate_claims` raise
`InvalidClaimError`; a payload whose `aud` list is empty instead raises
`MissingClaimError` for `aud` at the required-claim stage. -/
theorem validate_claims_blank_audience (now : Int) (payload : List (String × PyVal))
    (expected_audience auds : List String)
    (h_aud : dictGet payload "aud" = PyVal.strList auds)
    (h_exp_t : truthy (dictGet payload "exp") = true)
    (h_sub : truthy (dictGet payload "sub") = true)
    (h_exp : validate_exp now (dictGet payload "exp") = .ok ())
    (h_ea : expected_audience ≠ []) :
    (auds ≠ [] → (∀ a ∈ auds, a = "") →
      validate_claims now payload expected_audience =
        .error (.invalidClaim "audience_claim cannot be empty")) ∧
    (auds = [] →
      validate_claims now payload expected_audience =
        .error (.missingClaim "aud")) := by
  constructor
  · intro h_ne h_blank
    have h_audt : truthy (PyVal.strList auds) = true := by
      simp [truthy, h_ne]
    have hred : validate_claims now payload expected_audience =
        validate_aud auds expected_audience := by
      simp [validate_claims, REQUIRED_CLAIMS, List.find?, h_aud, h_audt, h_exp_t, h_sub,
        h_exp, pyAudList]
    have h_all : auds.all (fun aud => aud == "") = true := by
      simp [List.all_eq_true]
      exact h_blank
    rw [hred]
    unfold validate_aud
    rw [if_neg (by simp [h_ea]), if_pos (by simp [h_all])]
  · intro h_nil
    have h_audt : truthy (PyVal.strList auds) = false := by
      simp [truthy, h_nil]
    simp [validate_claims, REQUIRED_CLAIMS, List.find?, h_aud, h_audt]

/-- C3 witness: a payload whose `aud` list is `[""]` (blank only) and
otherwise valid claims is rejected with `InvalidClaimError`. -/
theorem validate_claims_blank_audience_witness :
    validate_claims 50
      [("aud", PyVal.strList [""]), ("exp", PyVal.int 100), ("sub", PyVal.str "s")]
      ["a"] = .error (.invalidClaim "audience_claim cannot be empty") :=
  (validate_claims_blank_audience 50
    [("aud", PyVal.strList [""]), ("exp", PyVal.int 100), ("sub", PyVal.str "s")]
    ["a"] [""] rfl (by decide) (by decide) rfl (by decide)).1 (by decide) (by decide)

/-- C4: for payloads whose required claims are all truthy, an integer
`exp` value `k` makes `validate_claims` raise `TokenExpiredError`
exactly when `k` is strictly below the current time (`k = now` is
accepted by the expiration check), and a non-numeric string `exp`
propagates the `ValueError` of the `int` builtin instead of a named
validation error. -/
theorem validate_claims_expiration (now : Int) (payload : List (String × PyVal))
    (expected_audience : List String) :
    (∀ k : Int, truthy (dictGet payload "aud") = true →
      truthy (dictGet payload "sub") = true →
      dictGet payload "exp" = PyVal.int k → k ≠ 0 →
      (validate_claims now payload expected_audience = .error .tokenExpired ↔ k < now)) ∧
    (∀ s : String, truthy (dictGet payload "aud") = true →
      truthy (dictGet payload "sub") = true →
      dictGet payload "exp" = PyVal.str s → s ≠ "" → pyStrToInt s = Option.none →
      validate_claims now payload expected_audience =
        .error (.valueError INT_PARSE_ERROR)) := by
  constructor
  · intro k h_aud h_sub h_exp h_k
    have h_expt : truthy (PyVal.int k) = true := by simp [truthy, h_k]
    by_cases hlt : k < now
    · simp [validate_claims, REQUIRED_CLAIMS, List.find?, h_aud, h_sub, h_exp, h_expt,
        validate_exp, pyIntOfStr, hlt]
    · have hne := validate_aud_ne_tokenExpired
        (pyAudList (dictGet payload "aud")) expected_audience
      simp [validate_claims, REQUIRED_CLAIMS, List.find?, h_aud, h_sub, h_exp, h_expt,
        validate_exp, pyIntOfStr, hlt]
      exact fun h => hne h
  · intro s h_aud h_sub h_exp h_s h_parse
    have h_expt : truthy (PyVal.str s) = true := by simp [truthy, h_s]
    simp [validate_claims, REQUIRED_CLAIMS, List.find?, h_aud, h_sub, h_exp, h_expt,
      validate_exp, pyIntOfStr, h_parse]

/-- C4 witness: at current time 200, an `exp` of 100 is expired (the
equivalence instantiated at a concrete payload), and a payload whose
`exp` is the non-numeric string `abc` propagates the parse failure. -/
theorem validate_claims_expiration_witness :
    (validate_claims 200
      [("aud", PyVal.strList ["a"]), ("exp", PyVal.int 100), ("sub", PyVal.str "s")]
      ["a"] = .error .tokenExpired ↔ (100 : Int) < 200) ∧
    validate_claims 200
      [("aud", PyVal.strList ["a"]), ("exp", PyVal.str "abc"), ("sub", PyVal.str "s")]
      ["a"] = .error (.valueError INT_PARSE_ERROR) :=
  ⟨(validate_claims_expiration 200
      [("aud", PyVal.strList ["a"]), ("exp", PyVal.int 100), ("sub", PyVal.str "s")]
      ["a"]).1 100 (by decide) (by decide) rfl (by decide),
   (validate_claims_expiration 200
      [("aud", PyVal.strList ["a"]), ("exp", PyVal.str "abc"), ("sub", PyVal.str "s")]
      ["a"]).2 "abc" (by decide) (by decide) rfl (by decide) (by decide)⟩

/-- C10 counterexample: in a payload whose `exp` claim is present but
falsy (the integer 0) and whose `aud` claim is absent, `validate_claims`
raises `MissingClaimError` for `aud`, not for `exp` — so the claim as
universally stated fails for payloads that also lack an earlier required
claim. -/
theorem validate_claims_falsy_exp_counterexample :
    (truthy (dictGet [("exp", PyVal.int 0)] "exp") = false) ∧
    (validate_claims 0 [("exp", PyVal.int 0)] ["a"] = .error (.missingClaim "aud")) ∧
    (ValidationError.missingClaim "aud" ≠ ValidationError.missingClaim "exp") :=
  ⟨rfl, rfl, by decide⟩

/-- C10 (amended): for every payload whose `aud` claim is truthy and
whose `exp` claim is falsy — e.g. present with value 0 or the empty
string — `validate_claims` raises `MissingClaimError` for `exp` at the
required-claim stage and never reaches the expiration or audience
checks: presence is decided by truthiness, not key membership.  (When
`aud` is also missing or falsy, `MissingClaimError` for `aud` wins.) -/
theorem validate_claims_falsy_exp (now : Int) (payload : List (String × PyVal))
    (expected_audience : List String)
    (h_aud : truthy (dictGet payload "aud") = true)
    (h_exp : truthy (dictGet payload "exp") = false) :
    validate_claims now payload expected_audience = .error (.missingClaim "exp") := by
  simp [validate_claims, REQUIRED_CLAIMS, List.find?, h_aud, h_exp]

/-- C10 witness: `exp` present with the falsy value 0 — a syntactically
valid, long-expired timestamp — is reported as a missing claim. -/
theorem validate_claims_falsy_exp_witness :
    validate_claims 0 [("aud", PyVal.strList ["a"]), ("exp", PyVal.int 0)] ["a"] =
      .error (.missingClaim "exp") :=
  validate_claims_falsy_exp 0 [("aud", PyVal.strList ["a"]), ("exp", PyVal.int 0)] ["a"]
    (by decide) (by decide)

/-- C5: `validate_headers` raises an input-validation `ValueError` when
the headers are empty or the `alg` header is absent or empty; raises
`InvalidAlgorithmError` when `alg` is present but unsupported; raises
`InvalidTypeError` when (with a supported `alg`) `typ` is present,
non-empty and neither `JWT` nor `JOSE`; and succeeds otherwise,
including when `typ` is absent or empty. -/
theorem validate_headers_cases (headers : List (String × String)) :
    (headers = [] →
      validate_headers headers =
        .error (.valueError (INVALID_INPUT_ERROR "header cannot be empty"))) ∧
    (headers ≠ [] → headersGet headers "alg" = Option.none →
      validate_headers headers =
        .error (.valueError (INVALID_INPUT_ERROR "header alg cannot be empty"))) ∧
    (headers ≠ [] → headersGet headers "alg" = some "" →
      validate_headers headers =
        .error (.valueError (INVALID_INPUT_ERROR "header alg cannot be empty"))) ∧
    (∀ alg, headers ≠ [] → headersGet headers "alg" = some alg → alg ≠ "" →
      SUPPORTED_ALGORITHMS.contains alg = false →
      validate_headers headers = .error (.invalidAlgorithm alg)) ∧
    (∀ alg typ, headers ≠ [] → headersGet headers "alg" = some alg →
      SUPPORTED_ALGORITHMS.contains alg = true →
      headersGet headers "typ" = some typ → typ ≠ "" →
      SUPPORTED_TYPES.contains typ = false →
      validate_headers headers = .error (.invalidType typ)) ∧
    (∀ alg, headers ≠ [] → headersGet headers "alg" = some alg →
      SUPPORTED_ALGORITHMS.contains alg = true →
      (headersGet headers "typ" = Option.none ∨ headersGet headers "typ" = some "" ∨
        (∃ typ, headersGet headers "typ" = some typ ∧
          SUPPORTED_TYPES.contains typ = true)) →
      validate_headers headers = .ok ()) := by
  refine ⟨?_, ?_, ?_, ?_, ?_, ?_⟩
  · intro h1
    simp [validate_headers, h1]
  · intro h1 h2
    simp [validate_headers, h1, h2]
  · intro h1 h2
    simp [validate_headers, h1, h2]
  · intro alg h1 h2 h3 h4
    simp at h4
    simp [validate_headers, h1, h2, h3, h4]
  · intro alg typ h1 h2 h3 h4 h5 h6
    have halg : alg ≠ "" := by
      intro h
      rw [h] at h3
      simp [SUPPORTED_ALGORITHMS] at h3
    simp at h3 h6
    simp [validate_headers, h1, h2, h3, h4, h5, h6, halg]
  · intro alg h1 h2 h3 h4
    have halg : alg ≠ "" := by
      intro h
      rw [h] at h3
      simp [SUPPORTED_ALGORITHMS] at h3
    simp at h3
    rcases h4 with h4 | h4 | ⟨typ, h4, h5⟩
    · simp [validate_headers, h1, h2, h3, h4, halg]
    · simp [validate_headers, h1, h2, h3, h4, halg]
    · simp at h5
      simp [validate_headers, h1, h2, h3, h4, h5, halg]

/-- C5 witness: the four behaviours at concrete headers — empty headers
fail, `HS256` is rejected as unsupported, a bogus `typ` is rejected, and
a plain `RS256` header succeeds. -/
theorem validate_headers_cases_witness :
    validate_headers [] =
      .error (.valueError (INVALID_INPUT_ERROR "header cannot be empty")) ∧
    validate_headers [("alg", "HS256")] = .error (.invalidAlgorithm "HS256") ∧
    validate_headers [("alg", "RS256"), ("typ", "bogus")] =
      .error (.invalidType "bogus") ∧
    validate_headers [("alg", "RS256")] = .ok () :=
  ⟨(validate_headers_cases []).1 rfl,
   (validate_headers_cases [("alg", "HS256")]).2.2.2.1 "HS256" (by decide) rfl
     (by decide) (by decide),
   (validate_headers_cases [("alg", "RS256"), ("typ", "bogus")]).2.2.2.2.1 "RS256"
     "bogus" (by decide) rfl (by decide) rfl (by decide) (by decide),
   (validate_headers_cases [("alg", "RS256")]).2.2.2.2.2 "RS256" (by decide) rfl
     (by decide) (Or.inl rfl)⟩

/-- PEM parse succeeds on non-empty input and yields a bundle whose
authority set is the set of parsed certificates. -/
theorem parse_pem_ok (h : Heap) (d : String) (certs : List Cert)
    (hd : d ≠ "") (hne : certs ≠ []) :
    ∃ h2 b, X509Bundle.parse h d (.pem certs) = .ok (h2, b) ∧
      hget h2 b.authoritiesRef = certs.toFinset := by
  cases certs with
  | nil => exact absurd rfl hne
  | cons c cs =>
    have hp : X509Bundle.parse h d (.pem (c :: cs)) =
        .ok ((halloc (halloc h (c :: cs).toFinset).1
                (hget (halloc h (c :: cs).toFinset).1 (halloc h (c :: cs).toFinset).2)).1,
             ⟨d, (halloc (halloc h (c :: cs).toFinset).1
                (hget (halloc h (c :: cs).toFinset).1 (halloc h (c :: cs).toFinset).2)).2⟩) := by
      simp only [X509Bundle.parse, parse_pem_certificates, X509Bundle.init, if_neg hd]
    refine ⟨_, _, hp, ?_⟩
    rw [hget_halloc_new, hget_halloc_new]

/-- The composition the round-trip claim is about: parse bytes into a
bundle, save it as PEM at `path`, load it back, and return the authority
sets of the original and of the reloaded bundle. -/
def pemRoundTrip (h : Heap) (d path : String) (bundle_bytes : Bytes) (fs : FS) :
    Except BundleError (Finset Cert × Finset Cert) :=
  match X509Bundle.parse h d bundle_bytes with
  | .error e => .error e
  | .ok (h2, b) =>
    match X509Bundle.load h2 d (X509Bundle.save h2 b fs path .PEM) path .PEM with
    | .error e => .error e
    | .ok (h3, b2) => .ok (hget h2 b.authoritiesRef, hget h3 b2.authoritiesRef)

/-- C6: for every non-empty trust domain, non-empty valid PEM input and
path, parsing, saving as PEM, and loading back succeeds and yields a
bundle whose authority set equals that of the bundle returned by
`parse` (both are the set of certificates encoded by the input). -/
theorem bundle_pem_roundtrip (h : Heap) (d path : String) (certs : List Cert) (fs : FS)
    (hd : d ≠ "") (hne : certs ≠ []) :
    pemRoundTrip h d path (.pem certs) fs = .ok (certs.toFinset, certs.toFinset) := by
  obtain ⟨h2, b, hparse, hset2⟩ := parse_pem_ok h d certs hd hne
  have hsne : (hget h2 b.authoritiesRef).sort (fun a b => a ≤ b) ≠ [] := by
    intro hnil
    have hts := Finset.sort_toFinset (fun a b => a ≤ b) (hget h2 b.authoritiesRef)
    rw [hnil] at hts
    simp at hts
    rw [hset2] at hts
    cases certs with
    | nil => exact hne rfl
    | cons c cs =>
      have : c ∈ (c :: cs).toFinset := by simp
      rw [← hts] at this
      simp at this
  have hfile : X509Bundle.save h2 b fs path .PEM path =
      some (.pem ((hget h2 b.authoritiesRef).sort (fun a b => a ≤ b))) := by
    simp [X509Bundle.save, write_certificates_to_file, fsWrite]
  obtain ⟨h3, b2, hparse2, hset3⟩ :=
    parse_pem_ok h2 d ((hget h2 b.authoritiesRef).sort (fun a b => a ≤ b)) hd hsne
  have hload : X509Bundle.load h2 d (X509Bundle.save h2 b fs path .PEM) path .PEM =
      .ok (h3, b2) := by
    simp only [X509Bundle.load, load_certificates_bytes_from_file, hfile]
    exact hparse2
  have hst : hget h3 b2.authoritiesRef = hget h2 b.authoritiesRef := by
    rw [hset3, Finset.sort_toFinset]
  simp only [pemRoundTrip, hparse, hload, hst, hset2]

/-- C6 witness: the round trip at a concrete heap, trust domain, path
and one-certificate PEM input. -/
theorem bundle_pem_roundtrip_witness :
    pemRoundTrip ⟨fun _ => ∅, 0⟩ "example.org" "bundle.pem" (.pem ["certA"])
      (fun _ => Option.none) =
      .ok ((["certA"] : List Cert).toFinset, (["certA"] : List Cert).toFinset) :=
  bundle_pem_roundtrip ⟨fun _ => ∅, 0⟩ "example.org" "bundle.pem" ["certA"]
    (fun _ => Option.none) (by decide) (by decide)

/-- C7: constructing a bundle from a caller-held authority set reference
`r` stores a copy — the bundle's set equals the caller's at construction
time, lives behind a distinct reference, and later mutation of the
caller's set does not change it — and `x509_authorities` returns a fresh
snapshot: equal in contents, behind a reference distinct from the
bundle's, so that mutating the snapshot leaves the bundle unchanged and
mutating the bundle (e.g. `add_authority`) leaves the snapshot
unchanged.  The caller never holds the live internal set. -/
theorem bundle_copy_semantics (h h1 : Heap) (r : Nat) (d : String) (b : X509Bundle)
    (hr : r < h.next)
    (hinit : X509Bundle.init h d (some r) = .ok (h1, b)) :
    (hget h1 b.authoritiesRef = hget h r) ∧
    (b.authoritiesRef ≠ r) ∧
    (∀ s, hget (hset h1 r s) b.authoritiesRef = hget h1 b.authoritiesRef) ∧
    (hget (X509Bundle.x509_authorities h1 b).1 (X509Bundle.x509_authorities h1 b).2 =
      hget h1 b.authoritiesRef) ∧
    ((X509Bundle.x509_authorities h1 b).2 ≠ b.authoritiesRef) ∧
    (hget (X509Bundle.x509_authorities h1 b).1 b.authoritiesRef =
      hget h1 b.authoritiesRef) ∧
    (∀ s, hget (hset (X509Bundle.x509_authorities h1 b).1
        (X509Bundle.x509_authorities h1 b).2 s) b.authoritiesRef =
      hget (X509Bundle.x509_authorities h1 b).1 b.authoritiesRef) ∧
    (∀ c, hget (X509Bundle.add_authority (X509Bundle.x509_authorities h1 b).1 b c)
        (X509Bundle.x509_authorities h1 b).2 =
      hget (X509Bundle.x509_authorities h1 b).1 (X509Bundle.x509_authorities h1 b).2) := by
  unfold X509Bundle.init at hinit
  by_cases hd : d = ""
  · rw [if_pos hd] at hinit
    exact absurd hinit (by simp)
  · rw [if_neg hd] at hinit
    simp only [Except.ok.injEq, Prod.mk.injEq] at hinit
    obtain ⟨hh1, hb⟩ := hinit
    subst hh1
    subst hb
    refine ⟨?_, ?_, ?_, ?_, ?_, ?_, ?_, ?_⟩
    · exact hget_halloc_new h (hget h r)
    · exact Nat.ne_of_gt hr
    · intro s
      exact hget_hset_ne _ r _ s (Nat.ne_of_gt hr)
    · exact hget_halloc_new _ _
    · exact Nat.succ_ne_self h.next
    · exact hget_halloc_old _ _ _ (Nat.lt_succ_self h.next)
    · intro s
      exact hget_hset_ne _ _ _ s (Nat.ne_of_lt (Nat.lt_succ_self h.next))
    · intro c
      exact hget_hset_ne _ _ _ _ (Nat.succ_ne_self h.next)

/-- C7 witness: at a concrete heap whose reference 0 is the caller's
set, mutating the caller's set after construction leaves the freshly
constructed bundle's authority set unchanged. -/
theorem bundle_copy_semantics_witness :
    hget (hset (halloc (Heap.mk (fun _ => ∅) 1) (hget (Heap.mk (fun _ => ∅) 1) 0)).1 0
        {"certB"})
      (X509Bundle.mk "example.org"
        (halloc (Heap.mk (fun _ => ∅) 1) (hget (Heap.mk (fun _ => ∅) 1) 0)).2).authoritiesRef =
    hget (halloc (Heap.mk (fun _ => ∅) 1) (hget (Heap.mk (fun _ => ∅) 1) 0)).1
      (X509Bundle.mk "example.org"
        (halloc (Heap.mk (fun _ => ∅) 1) (hget (Heap.mk (fun _ => ∅) 1) 0)).2).authoritiesRef :=
  (bundle_copy_semantics (Heap.mk (fun _ => ∅) 1) _ 0 "example.org" _
    (by decide) rfl).2.2.1 {"certB"}

/-- C8 counterexample: on a bundle already containing the certificate,
adding it twice leaves the authority set at its old size — not one
element larger than before the first add — so the size part of the
claim fails without the precondition that the certificate is new. -/
theorem add_authority_size_counterexample :
    (hget (X509Bundle.add_authority
        (X509Bundle.add_authority (Heap.mk (fun _ => {"certA"}) 1)
          (X509Bundle.mk "example.org" 0) "certA")
        (X509Bundle.mk "example.org" 0) "certA")
      (X509Bundle.mk "example.org" 0).authoritiesRef).card ≠
    (hget (Heap.mk (fun _ => {"certA"}) 1)
      (X509Bundle.mk "example.org" 0).authoritiesRef).card + 1 := by
  decide

/-- C8 (amended): `add_authority` is idempotent — it inserts the
certificate, a second identical add changes nothing, adding an
already-present certificate is a no-op, and (set semantics) the
authority set never holds duplicates — and when the certificate was not
already present, adding it twice yields a set exactly one element
larger than before the first add; when it was present, the size is
unchanged.  `add_authority` has no error path. -/
theorem add_authority_idempotent (h : Heap) (b : X509Bundle) (c : Cert) :
    (hget (X509Bundle.add_authority h b c) b.authoritiesRef =
      insert c (hget h b.authoritiesRef)) ∧
    (hget (X509Bundle.add_authority (X509Bundle.add_authority h b c) b c)
        b.authoritiesRef =
      hget (X509Bundle.add_authority h b c) b.authoritiesRef) ∧
    (c ∈ hget h b.authoritiesRef →
      hget (X509Bundle.add_authority h b c) b.authoritiesRef =
        hget h b.authoritiesRef) ∧
    (c ∉ hget h b.authoritiesRef →
      (hget (X509Bundle.add_authority (X509Bundle.add_authority h b c) b c)
          b.authoritiesRef).card = (hget h b.authoritiesRef).card + 1) ∧
    (c ∈ hget h b.authoritiesRef →
      (hget (X509Bundle.add_authority (X509Bundle.add_authority h b c) b c)
          b.authoritiesRef).card = (hget h b.authoritiesRef).card) := by
  have h1 : hget (X509Bundle.add_authority h b c) b.authoritiesRef =
      insert c (hget h b.authoritiesRef) := by
    unfold X509Bundle.add_authority
    exact hget_hset_self _ _ _
  have h2 : hget (X509Bundle.add_authority (X509Bundle.add_authority h b c) b c)
      b.authoritiesRef = insert c (hget h b.authoritiesRef) := by
    unfold X509Bundle.add_authority
    rw [hget_hset_self, hget_hset_self, Finset.insert_idem]
  refine ⟨h1, by rw [h1, h2], ?_, ?_, ?_⟩
  · intro hc
    rw [h1, Finset.insert_eq_self.mpr hc]
  · intro hc
    rw [h2, Finset.card_insert_of_not_mem hc]
  · intro hc
    rw [h2, Finset.insert_eq_self.mpr hc]

/-- C8 witness: on a bundle with an empty authority set, adding the same
certificate twice yields a set of size one. -/
theorem add_authority_idempotent_witness :
    (hget (X509Bundle.add_authority
        (X509Bundle.add_authority (Heap.mk (fun _ => ∅) 1)
          (X509Bundle.mk "example.org" 0) "certA")
        (X509Bundle.mk "example.org" 0) "certA")
      (X509Bundle.mk "example.org" 0).authoritiesRef).card =
    (hget (Heap.mk (fun _ => ∅) 1)
      (X509Bundle.mk "example.org" 0).authoritiesRef).card + 1 :=
  (add_authority_idempotent (Heap.mk (fun _ => ∅) 1)
    (X509Bundle.mk "example.org" 0) "certA").2.2.2.1 (by decide)

/-- C9: `remove_authority` removes a present certificate from the
authority set; on an empty authority set it returns without error and
without change; and on a non-empty set that does not contain the
certificate it fails with the `KeyError` of the underlying set-remove
(only the empty-set case is special-cased as a no-op). -/
theorem remove_authority_cases (h : Heap) (b : X509Bundle) (c : Cert) :
    (hget h b.authoritiesRef = ∅ → X509Bundle.remove_authority h b c = .ok h) ∧
    (c ∈ hget h b.authoritiesRef →
      X509Bundle.remove_authority h b c =
        .ok (hset h b.authoritiesRef ((hget h b.authoritiesRef).erase c)) ∧
      hget (hset h b.authoritiesRef ((hget h b.authoritiesRef).erase c))
          b.authoritiesRef =
        (hget h b.authoritiesRef).erase c) ∧
    (hget h b.authoritiesRef ≠ ∅ → c ∉ hget h b.authoritiesRef →
      X509Bundle.remove_authority h b c = .error .keyError) := by
  refine ⟨?_, ?_, ?_⟩
  · intro he
    unfold X509Bundle.remove_authority
    rw [if_pos he]
  · intro hc
    have hne : hget h b.authoritiesRef ≠ ∅ := Finset.ne_empty_of_mem hc
    constructor
    · unfold X509Bundle.remove_authority
      rw [if_neg hne, if_pos hc]
    · exact hget_hset_self _ _ _
  · intro hne hc
    unfold X509Bundle.remove_authority
    rw [if_neg hne, if_neg hc]

/-- C9 witness: removing a certificate absent from a non-empty authority
set raises `KeyError`, while removing from an empty set is a no-op. -/
theorem remove_authority_cases_witness :
    X509Bundle.remove_authority (Heap.mk (fun _ => {"certA"}) 1)
      (X509Bundle.mk "example.org" 0) "certB" = .error .keyError ∧
    X509Bundle.remove_authority (Heap.mk (fun _ => ∅) 1)
      (X509Bundle.mk "example.org" 0) "certB" =
      .ok (Heap.mk (fun _ => ∅) 1) :=
  ⟨(remove_authority_cases (Heap.mk (fun _ => {"certA"}) 1)
      (X509Bundle.mk "example.org" 0) "certB").2.2 (by decide) (by decide),
   (remove_authority_cases (Heap.mk (fun _ => ∅) 1)
      (X509Bundle.mk "example.org" 0) "certB").1 (by decide)⟩
